import Mathlib

/-!
Verification of the AERAS user-side location block firmware
(`hardware/complete.ino`) against its design specification.

Shallow embedding conventions:
* `millis()` timestamps are `Nat` milliseconds.  All calls to `millis()`
  within one loop iteration are modelled as the same instant `now`
  (the firmware runs one iteration in well under a millisecond apart from
  the blocking network calls, which happen at the very end of a branch).
  Unsigned 32-bit wraparound is not modelled; timestamps are monotone.
* `float` arithmetic (distances in cm, LDR percentages) is modelled by
  exact rational arithmetic over `ℚ`.  Every property proved here depends
  only on order comparisons of these quantities, not on rounding.
* Hardware reads (`digitalRead`, `analogRead`, `pulseIn`) and network
  responses (`HTTPClient`) are inputs to each step, carried by `Input`.
* Global mutable state of the sketch is collected into `MachineState`;
  the `static` locals of `confirmButtonPressed` are the `BtnState`
  component, the laser-tracking globals are the `LaserState` component.
-/

namespace Aeras

/-! ## Tuning constants (verbatim from the source) -/

def MAX_DISTANCE_CM : ℚ := 20
def DISTANCE_MARGIN_CM : ℚ := 3
def MAX_DISTANCE_WITH_MARGIN_CM : ℚ := MAX_DISTANCE_CM + DISTANCE_MARGIN_CM
def HOLD_TIME_FAR_MS : Nat := 3500
def HOLD_TIME_NEAR_MS : Nat := 5000
def BLOCK_SELECT_HOLD_MS : Nat := 600
def BUTTON_LOCKOUT_MS : Nat := 2000
def BUTTON_HOLD_TIMEOUT_MS : Nat := 5000
def BUTTON_DEBOUNCE_MS : Nat := 45
def STATUS_POLL_INTERVAL : Nat := 2000
def REQUEST_TIMEOUT_MS : Nat := 60000
def DESTINATION_COUNT : Nat := 3

def LDR_REFERENCE_DELTA : Int := 1800
def LDR_PERCENT_THRESHOLD_HIGH : ℚ := 12
def LDR_PERCENT_THRESHOLD_LOW : ℚ := 8
def LDR_HOLD_DURATION_MS : Nat := 4200
def LDR_TRIGGER_STABILITY_MS : Nat := 250
def LDR_MIN_ABS_DELTA : Int := 45
def LDR_PERCENT_SMOOTH_ALPHA : ℚ := 6 / 100
def LDR_ADC_CONTINUE_DELTA : Int := 18

/-! ## Destination selector (`detectActiveBlock`) -/

/-- The `for` loop body of `detectActiveBlock`: scan the sensor pins from
index `i` upward and return the first index read `HIGH`, else `-1`. -/
def detectActiveBlockAux : List Bool → Nat → Int
  | [], _ => -1
  | b :: rest, i => if b then (i : Int) else detectActiveBlockAux rest (i + 1)

/-- `detectActiveBlock`: first destination plate reading `HIGH`, or `-1`.
The list holds the `digitalRead` values of the `DESTINATION_COUNT` pins. -/
def detectActiveBlock (sensors : List Bool) : Int :=
  detectActiveBlockAux sensors 0

/-! ## Presence range / dwell target -/

/-- `isWithinPresenceRange`. -/
def isWithinPresenceRange (distanceCm : ℚ) : Bool :=
  decide (0 < distanceCm ∧ distanceCm ≤ MAX_DISTANCE_WITH_MARGIN_CM)

/-- `requiredHoldDurationMs`: the two dwell-time tiers keyed on distance. -/
def requiredHoldDurationMs (distanceCm : ℚ) : Nat :=
  if 0 < distanceCm ∧ distanceCm ≤ (10.5 : ℚ) then HOLD_TIME_NEAR_MS
  else HOLD_TIME_FAR_MS

/-! ## Privilege verifier (`computeLaserPercent` / `detectLaserSignature`) -/

/-- The laser-tracking globals of the sketch. -/
structure LaserState where
  laserPercentInitialized : Bool
  currentLaserPercent : ℚ
  smoothedLaserPercent : ℚ
  currentLaserHoldMs : Nat
  currentLaserTargetMs : Nat
  laserHoldStartedAt : Nat
  laserHoldActive : Bool
  laserAboveHysteresis : Bool
  laserThresholdSatisfiedAt : Nat
deriving Repr, DecidableEq

/-- `resetLaserTracking`. -/
def resetLaserTracking (_s : LaserState) : LaserState :=
  { laserPercentInitialized := false
    currentLaserPercent := 0
    smoothedLaserPercent := 0
    currentLaserHoldMs := 0
    currentLaserTargetMs := LDR_HOLD_DURATION_MS
    laserHoldStartedAt := 0
    laserHoldActive := false
    laserAboveHysteresis := false
    laserThresholdSatisfiedAt := 0 }

/-- `computeLaserPercent`: clamped instantaneous percentage and exponential
smoothing.  Returns the updated state and the smoothed percentage. -/
def computeLaserPercent (ambientLdrBaseline : Int) (s : LaserState)
    (ldrAdc : Int) : LaserState × ℚ :=
  let delta : Int := max 0 (ldrAdc - ambientLdrBaseline)
  let instantPercent0 : ℚ := ((delta : ℚ) * 100) / (LDR_REFERENCE_DELTA : ℚ)
  let instantPercent1 : ℚ := if instantPercent0 < 0 then 0 else instantPercent0
  let instantPercent : ℚ := if instantPercent1 > 120 then 120 else instantPercent1
  if !s.laserPercentInitialized then
    ({ s with smoothedLaserPercent := instantPercent
              laserPercentInitialized := true
              currentLaserPercent := instantPercent }, instantPercent)
  else
    let sm := s.smoothedLaserPercent * (1 - LDR_PERCENT_SMOOTH_ALPHA) +
              instantPercent * LDR_PERCENT_SMOOTH_ALPHA
    ({ s with smoothedLaserPercent := sm, currentLaserPercent := sm }, sm)

/-- The hysteresis pair update at the top of `detectLaserSignature`
(lines 600-604 of the source): engage at or above the high threshold,
release at or below the low threshold. -/
def hysteresisUpdate (laserAboveHysteresis : Bool) (percent : ℚ) : Bool :=
  if !laserAboveHysteresis ∧ percent ≥ LDR_PERCENT_THRESHOLD_HIGH then true
  else if laserAboveHysteresis ∧ percent ≤ LDR_PERCENT_THRESHOLD_LOW then false
  else laserAboveHysteresis

/-- `detectLaserSignature`: one evaluation of the privilege verifier.
Returns the updated laser state and whether verification succeeded. -/
def detectLaserSignature (ambientLdrBaseline : Int) (s : LaserState)
    (now : Nat) (ldrAdc : Int) : LaserState × Bool :=
  let lastLdrDelta : Int := max 0 (ldrAdc - ambientLdrBaseline)
  let pr := computeLaserPercent ambientLdrBaseline s ldrAdc
  let s1 := pr.1
  let percent := pr.2
  let hyst := hysteresisUpdate s1.laserAboveHysteresis percent
  let s2 := { s1 with laserAboveHysteresis := hyst }
  let aboveThreshold : Bool :=
    decide (lastLdrDelta ≥ LDR_MIN_ABS_DELTA) ||
    (hyst && decide (lastLdrDelta ≥ LDR_ADC_CONTINUE_DELTA))
  let s3 := { s2 with currentLaserTargetMs := LDR_HOLD_DURATION_MS }
  if aboveThreshold then
    let s4 := if s3.laserThresholdSatisfiedAt = 0 then
                { s3 with laserThresholdSatisfiedAt := now }
              else s3
    let s5 := if !s4.laserHoldActive then
                (if now - s4.laserThresholdSatisfiedAt ≥ LDR_TRIGGER_STABILITY_MS then
                  { s4 with laserHoldActive := true
                            laserHoldStartedAt := now
                            currentLaserHoldMs := 0 }
                 else s4)
              else s4
    if s5.laserHoldActive then
      let hold0 := now - s5.laserHoldStartedAt
      let hold := if hold0 > s5.currentLaserTargetMs then s5.currentLaserTargetMs else hold0
      let s6 := { s5 with currentLaserHoldMs := hold }
      if hold ≥ s6.currentLaserTargetMs then (s6, true) else (s6, false)
    else (s5, false)
  else
    let keepFilling := s3.laserHoldActive && decide (lastLdrDelta ≥ LDR_ADC_CONTINUE_DELTA)
    if keepFilling then
      let startAt := if s3.laserHoldStartedAt = 0 then now - s3.currentLaserHoldMs
                     else s3.laserHoldStartedAt
      let hold0 := now - startAt
      let hold := if hold0 > s3.currentLaserTargetMs then s3.currentLaserTargetMs else hold0
      let s4 := { s3 with laserHoldStartedAt := startAt, currentLaserHoldMs := hold }
      if hold ≥ s4.currentLaserTargetMs then (s4, true) else (s4, false)
    else
      ({ s3 with laserThresholdSatisfiedAt := 0
                 laserHoldActive := false
                 laserHoldStartedAt := 0
                 currentLaserHoldMs := 0 }, false)

/-! ## Confirm gate (`confirmButtonPressed`) -/

/-- The confirm-gate state: the two `static` locals of
`confirmButtonPressed` plus the two globals it shares with the
coordinator (`buttonPressStartAt`, `buttonHoldTimeoutTriggered`). -/
structure BtnState where
  lastStableState : Bool
  lastChange : Nat
  buttonPressStartAt : Nat
  buttonHoldTimeoutTriggered : Bool
deriving Repr, DecidableEq

/-- `confirmButtonPressed`: one debounced evaluation of the confirm
control.  `raw` is `digitalRead(CONFIRM_BUTTON_PIN) == LOW`.  Returns the
updated state and whether a confirm event fired. -/
def confirmButtonPressed (s : BtnState) (now : Nat) (raw : Bool) :
    BtnState × Bool :=
  let pressStart := if raw && decide (s.buttonPressStartAt = 0) then now
                    else s.buttonPressStartAt
  let flag := if raw && decide (pressStart > 0) &&
                 decide (now - pressStart > BUTTON_HOLD_TIMEOUT_MS) then true
              else s.buttonHoldTimeoutTriggered
  if (raw != s.lastStableState) && decide (now - s.lastChange > BUTTON_DEBOUNCE_MS) then
    if !raw then
      let pressDuration := if pressStart > 0 then now - pressStart else 0
      if pressDuration ≥ BUTTON_HOLD_TIMEOUT_MS then
        ({ lastStableState := raw, lastChange := now, buttonPressStartAt := 0
           buttonHoldTimeoutTriggered := true }, false)
      else
        ({ lastStableState := raw, lastChange := now, buttonPressStartAt := 0
           buttonHoldTimeoutTriggered := flag }, true)
    else
      ({ lastStableState := raw, lastChange := now, buttonPressStartAt := pressStart
         buttonHoldTimeoutTriggered := flag }, false)
  else
    ({ s with buttonPressStartAt := pressStart, buttonHoldTimeoutTriggered := flag }, false)

/-- Fold `confirmButtonPressed` over a list of `(millis, raw)` samples,
counting how many confirm events fired. -/
def runButton : BtnState → List (Nat × Bool) → BtnState × Nat
  | s, [] => (s, 0)
  | s, (t, raw) :: rest =>
    let r := confirmButtonPressed s t raw
    let r2 := runButton r.1 rest
    (r2.1, (if r.2 then 1 else 0) + r2.2)

/-- A single press of the control: held samples at `p :: heldRest`, then a
release sample at `rt`. -/
def pressTrace (p : Nat) (heldRest : List Nat) (rt : Nat) : List (Nat × Bool) :=
  (p, true) :: (heldRest.map (fun t => (t, true)) ++ [(rt, false)])

/-! ## Dispatch coordinator (`updateStateMachine` and helpers) -/

/-- The `SystemState` enum, constructor names verbatim. -/
inductive SystemState where
  | STATE_IDLE
  | STATE_PRESENCE_TRACKING
  | STATE_WAITING_BLOCK
  | STATE_WAITING_LASER_READY
  | STATE_WAITING_LASER
  | STATE_WAITING_CONFIRM
  | STATE_DISPATCHING
  | STATE_WAITING_PULLER
  | STATE_RIDE_ACCEPTED
  | STATE_PICKUP_CONFIRMED
  | STATE_RIDE_COMPLETED
  | STATE_REJECTED_OR_ERROR
deriving Repr, DecidableEq

open SystemState

/-- The global mutable state of the sketch (the fields read or written by
`updateStateMachine` and the functions it calls).  The rolling state of
`updateDistanceStability` (`consecutiveInRangeSamples`,
`lastStableDistanceCm`) is not included: its boolean verdict enters the
step as the `distanceStable` input, exactly as `updateStateMachine`
receives it in the source. -/
structure MachineState where
  currentState : SystemState
  stateStartedAt : Nat
  lastStatusPollAt : Nat
  requestIssuedAt : Nat
  presenceProgressMs : Nat
  lastPresenceSampleAt : Nat
  laserStateEnteredAt : Nat
  activeRideId : String
  latchedBlockIndex : Int
  laserVerified : Bool
  candidateBlockIndex : Int
  blockSelectStartedAt : Nat
  lastButtonAcceptedAt : Nat
  confirmPresenceLostStartedAt : Nat
  lastPickupName : String
  lastDestinationName : String
  ambientLdrBaseline : Int
  btn : BtnState
  laser : LaserState
deriving Repr, DecidableEq

/-- Response to the create-ride `POST /rides` call.  `parseOk` stands for
`!err && doc.containsKey("ride")` in the source. -/
structure PostResponse where
  httpCode : Int
  parseOk : Bool
  rideId : String
  pickupName : String
  destinationName : String
deriving Repr, DecidableEq

/-- Response to the status poll `GET /rides/{id}`.  `parseOk` is
deserialization success; `status = none` models an absent status field
(defaulted to `"pending"` by the source). -/
structure PollResponse where
  httpCode : Int
  parseOk : Bool
  status : Option String
deriving Repr, DecidableEq

/-- The per-iteration inputs of `loop()`: the clock, the sensor reads and
the network responses an iteration would observe.  `freshBaseline` is the
average `recalibrateLdrBaseline` would compute if called this iteration. -/
structure Input where
  now : Nat
  distanceCm : ℚ
  distanceStable : Bool
  sensors : List Bool
  ldrAdc : Int
  buttonRaw : Bool
  freshBaseline : Int
  postResp : PostResponse
  pollResp : PollResponse
deriving Repr

/-- `resetPresenceTracking` (the fields of it that live in `MachineState`;
see the note on `MachineState` for the two stability-filter fields). -/
def resetPresenceTracking (s : MachineState) : MachineState :=
  { s with presenceProgressMs := 0
           lastPresenceSampleAt := 0
           candidateBlockIndex := -1
           blockSelectStartedAt := 0 }

/-- `setState`: switch `currentState`, stamp `stateStartedAt`, and run the
entry actions for `STATE_WAITING_LASER` (baseline recalibration and laser
reset) and `STATE_WAITING_CONFIRM` (confirm-gate reset). -/
def setState (s : MachineState) (now : Nat) (freshBaseline : Int)
    (nextState : SystemState) : MachineState :=
  let s1 := { s with currentState := nextState, stateStartedAt := now }
  let s2 := if nextState = STATE_WAITING_LASER then
              { s1 with ambientLdrBaseline := freshBaseline
                        laserStateEnteredAt := now
                        laser := resetLaserTracking s1.laser }
            else s1
  if nextState = STATE_WAITING_CONFIRM then
    { s2 with btn := { s2.btn with buttonHoldTimeoutTriggered := false
                                   buttonPressStartAt := 0 }
              confirmPresenceLostStartedAt := 0 }
  else s2

/-- `resetSystem`: the full request-cycle reset converging on
`STATE_IDLE`.  (`confirmPresenceLostStartedAt` is not cleared here in the
source; it is cleared on entry to `STATE_WAITING_CONFIRM`.) -/
def resetSystem (s : MachineState) (now : Nat) : MachineState :=
  let s1 := { s with activeRideId := ""
                     latchedBlockIndex := -1 }
  let s2 := resetPresenceTracking s1
  let s3 := { s2 with laserVerified := false
                      laserStateEnteredAt := 0
                      btn := { s2.btn with buttonHoldTimeoutTriggered := false
                                           buttonPressStartAt := 0 }
                      lastButtonAcceptedAt := 0
                      laser := resetLaserTracking s2.laser }
  setState s3 now s3.ambientLdrBaseline STATE_IDLE

/-- `sendRideRequest`.  The boolean result records whether the HTTP POST
was actually issued (it is, whenever a destination is latched). -/
def sendRideRequest (s : MachineState) (i : Input) : MachineState × Bool :=
  if s.latchedBlockIndex < 0 then (resetSystem s i.now, false)
  else if i.postResp.httpCode = 201 then
    if i.postResp.parseOk then
      let s1 := { s with activeRideId := i.postResp.rideId
                         lastPickupName := i.postResp.pickupName
                         lastDestinationName := i.postResp.destinationName
                         requestIssuedAt := i.now
                         lastStatusPollAt := 0 }
      (setState s1 i.now i.freshBaseline STATE_WAITING_PULLER, true)
    else (setState s i.now i.freshBaseline STATE_REJECTED_OR_ERROR, true)
  else (setState s i.now i.freshBaseline STATE_REJECTED_OR_ERROR, true)

/-- `pollRideStatus`: apply one status-poll response.  A parse failure on
an HTTP 200 returns with the state untouched; an HTTP 200 with a
recognized status maps it onto the coordinator state; 404 maps to
`STATE_REJECTED_OR_ERROR`; any other code leaves the state untouched. -/
def pollRideStatus (s : MachineState) (i : Input) : MachineState :=
  if s.activeRideId = "" then s
  else if i.pollResp.httpCode = 200 then
    if !i.pollResp.parseOk then s
    else
      let s1 := { s with lastStatusPollAt := i.now }
      let status := i.pollResp.status.getD "pending"
      if status = "accepted" then
        setState s1 i.now i.freshBaseline STATE_RIDE_ACCEPTED
      else if status = "pickup_confirmed" ∨ status = "in_progress" then
        setState s1 i.now i.freshBaseline STATE_PICKUP_CONFIRMED
      else if status = "completed" then
        setState s1 i.now i.freshBaseline STATE_RIDE_COMPLETED
      else if status = "rejected" ∨ status = "cancelled" then
        setState s1 i.now i.freshBaseline STATE_REJECTED_OR_ERROR
      else s1
  else if i.pollResp.httpCode = 404 then
    setState s i.now i.freshBaseline STATE_REJECTED_OR_ERROR
  else s

/-- `updateStateMachine`: one loop iteration's worth of coordinator
transition.  The boolean result records whether a create-ride HTTP POST
was issued during the step. -/
def updateStateMachine (s : MachineState) (i : Input) : MachineState × Bool :=
  match s.currentState with
  | STATE_IDLE =>
    if isWithinPresenceRange i.distanceCm && i.distanceStable then
      let s1 := resetPresenceTracking { s with latchedBlockIndex := -1 }
      let s2 := { s1 with lastPresenceSampleAt := i.now }
      (setState s2 i.now i.freshBaseline STATE_PRESENCE_TRACKING, false)
    else (s, false)
  | STATE_PRESENCE_TRACKING =>
    let targetHold := requiredHoldDurationMs i.distanceCm
    if !isWithinPresenceRange i.distanceCm then
      (setState (resetPresenceTracking s) i.now i.freshBaseline STATE_IDLE, false)
    else if !i.distanceStable then
      ({ s with lastPresenceSampleAt := i.now, presenceProgressMs := 0 }, false)
    else
      let lastAt := if s.lastPresenceSampleAt = 0 then i.now else s.lastPresenceSampleAt
      let delta := i.now - lastAt
      let progress := if s.presenceProgressMs + delta > targetHold then targetHold
                      else s.presenceProgressMs + delta
      let s1 := { s with presenceProgressMs := progress, lastPresenceSampleAt := i.now }
      if progress ≥ targetHold then
        (setState { s1 with candidateBlockIndex := -1, blockSelectStartedAt := 0 }
           i.now i.freshBaseline STATE_WAITING_BLOCK, false)
      else (s1, false)
  | STATE_WAITING_BLOCK =>
    if !i.distanceStable then (resetSystem s i.now, false)
    else
      let detected := detectActiveBlock i.sensors
      if detected < 0 then
        ({ s with candidateBlockIndex := -1, blockSelectStartedAt := 0 }, false)
      else if s.candidateBlockIndex ≠ detected then
        ({ s with candidateBlockIndex := detected, blockSelectStartedAt := i.now }, false)
      else if i.now - s.blockSelectStartedAt ≥ BLOCK_SELECT_HOLD_MS then
        let s1 := { s with latchedBlockIndex := s.candidateBlockIndex }
        let s2 := setState s1 i.now i.freshBaseline STATE_WAITING_LASER
        ({ s2 with laserStateEnteredAt := i.now }, false)
      else (s, false)
  | STATE_WAITING_LASER_READY => (s, false)
  | STATE_WAITING_LASER =>
    let activeBlock := detectActiveBlock i.sensors
    if activeBlock ≥ 0 ∧ activeBlock ≠ s.latchedBlockIndex then
      (resetSystem s i.now, false)
    else
      let lr := detectLaserSignature s.ambientLdrBaseline s.laser i.now i.ldrAdc
      let s1 := { s with laser := lr.1 }
      if lr.2 then
        (setState { s1 with laserVerified := true } i.now i.freshBaseline
           STATE_WAITING_CONFIRM, false)
      else (s1, false)
  | STATE_WAITING_CONFIRM =>
    if ¬(isWithinPresenceRange i.distanceCm = true) ∧
       s.confirmPresenceLostStartedAt ≠ 0 ∧
       i.now - s.confirmPresenceLostStartedAt > 2000 then
      (resetSystem s i.now, false)
    else
      let s1 := if !isWithinPresenceRange i.distanceCm then
                  (if s.confirmPresenceLostStartedAt = 0 then
                    { s with confirmPresenceLostStartedAt := i.now }
                   else s)
                else { s with confirmPresenceLostStartedAt := 0 }
      let activeBlock := detectActiveBlock i.sensors
      if activeBlock ≥ 0 ∧ activeBlock ≠ s1.latchedBlockIndex then
        (setState { s1 with candidateBlockIndex := activeBlock
                            blockSelectStartedAt := i.now }
           i.now i.freshBaseline STATE_WAITING_BLOCK, false)
      else if s1.btn.buttonHoldTimeoutTriggered then
        (resetSystem s1 i.now, false)
      else
        let br := confirmButtonPressed s1.btn i.now i.buttonRaw
        let s2 := { s1 with btn := br.1 }
        if br.2 then
          if i.now - s2.lastButtonAcceptedAt < BUTTON_LOCKOUT_MS then (s2, false)
          else
            let s3 := { s2 with lastButtonAcceptedAt := i.now }
            sendRideRequest (setState s3 i.now i.freshBaseline STATE_DISPATCHING) i
        else (s2, false)
  | STATE_DISPATCHING => (s, false)
  | STATE_WAITING_PULLER =>
    if s.activeRideId = "" then (resetSystem s i.now, false)
    else if i.now - s.requestIssuedAt ≥ REQUEST_TIMEOUT_MS then
      (setState s i.now i.freshBaseline STATE_REJECTED_OR_ERROR, false)
    else if i.now - s.lastStatusPollAt ≥ STATUS_POLL_INTERVAL then
      (pollRideStatus s i, false)
    else (s, false)
  | STATE_RIDE_ACCEPTED =>
    if s.activeRideId = "" then (resetSystem s i.now, false)
    else if i.now - s.lastStatusPollAt ≥ STATUS_POLL_INTERVAL then
      (pollRideStatus s i, false)
    else (s, false)
  | STATE_PICKUP_CONFIRMED =>
    if s.activeRideId = "" then (resetSystem s i.now, false)
    else if i.now - s.lastStatusPollAt ≥ STATUS_POLL_INTERVAL then
      (pollRideStatus s i, false)
    else (s, false)
  | STATE_RIDE_COMPLETED =>
    if i.now - s.stateStartedAt > 8000 then (resetSystem s i.now, false)
    else (s, false)
  | STATE_REJECTED_OR_ERROR =>
    if i.now - s.stateStartedAt > 8000 then (resetSystem s i.now, false)
    else (s, false)

/-- Fold `updateStateMachine` over a list of per-iteration inputs. -/
def runMachine (s : MachineState) (is : List Input) : MachineState :=
  is.foldl (fun st i => (updateStateMachine st i).1) s

/-- The `currentState` reached after each step of a run. -/
def stateTrace (s : MachineState) : List Input → List SystemState
  | [] => []
  | i :: rest =>
    let s' := (updateStateMachine s i).1
    s'.currentState :: stateTrace s' rest

/-- The global state right after `setup()` (timestamps taken as 0, the
boot LDR baseline left symbolic at 0). -/
def bootState : MachineState :=
  { currentState := STATE_IDLE
    stateStartedAt := 0
    lastStatusPollAt := 0
    requestIssuedAt := 0
    presenceProgressMs := 0
    lastPresenceSampleAt := 0
    laserStateEnteredAt := 0
    activeRideId := ""
    latchedBlockIndex := -1
    laserVerified := false
    candidateBlockIndex := -1
    blockSelectStartedAt := 0
    lastButtonAcceptedAt := 0
    confirmPresenceLostStartedAt := 0
    lastPickupName := ""
    lastDestinationName := ""
    ambientLdrBaseline := 0
    btn := { lastStableState := false, lastChange := 0, buttonPressStartAt := 0
             buttonHoldTimeoutTriggered := false }
    laser := resetLaserTracking
      { laserPercentInitialized := false, currentLaserPercent := 0
        smoothedLaserPercent := 0, currentLaserHoldMs := 0
        currentLaserTargetMs := 0, laserHoldStartedAt := 0
        laserHoldActive := false, laserAboveHysteresis := false
        laserThresholdSatisfiedAt := 0 } }

/-- A fixed "don't care" input used to build concrete test iterations. -/
def mkInput (now : Nat) (distanceCm : ℚ) (distanceStable : Bool)
    (sensors : List Bool) (ldrAdc : Int) : Input :=
  { now := now
    distanceCm := distanceCm
    distanceStable := distanceStable
    sensors := sensors
    ldrAdc := ldrAdc
    buttonRaw := false
    freshBaseline := 0
    postResp := { httpCode := 0, parseOk := false, rideId := ""
                  pickupName := "", destinationName := "" }
    pollResp := { httpCode := 0, parseOk := false, status := none } }

/-! ## Helper lemmas about the coordinator primitives -/

lemma setState_currentState (s : MachineState) (now : Nat) (b : Int)
    (st : SystemState) : (setState s now b st).currentState = st := by
  unfold setState
  split <;> split <;> rfl

lemma setState_latchedBlockIndex (s : MachineState) (now : Nat) (b : Int)
    (st : SystemState) :
    (setState s now b st).latchedBlockIndex = s.latchedBlockIndex := by
  unfold setState
  split <;> split <;> rfl

lemma setState_activeRideId (s : MachineState) (now : Nat) (b : Int)
    (st : SystemState) : (setState s now b st).activeRideId = s.activeRideId := by
  unfold setState
  split <;> split <;> rfl

lemma resetSystem_currentState (s : MachineState) (now : Nat) :
    (resetSystem s now).currentState = STATE_IDLE := by
  unfold resetSystem
  exact setState_currentState _ _ _ _

lemma resetSystem_latchedBlockIndex (s : MachineState) (now : Nat) :
    (resetSystem s now).latchedBlockIndex = -1 := by
  unfold resetSystem
  rw [setState_latchedBlockIndex]
  rfl

lemma pollRideStatus_latchedBlockIndex (s : MachineState) (i : Input) :
    (pollRideStatus s i).latchedBlockIndex = s.latchedBlockIndex := by
  unfold pollRideStatus
  simp only []
  split
  · rfl
  split
  · split
    · rfl
    · split
      · rw [setState_latchedBlockIndex]
      · split
        · rw [setState_latchedBlockIndex]
        · split
          · rw [setState_latchedBlockIndex]
          · split
            · rw [setState_latchedBlockIndex]
            · rfl
  · split
    · rw [setState_latchedBlockIndex]
    · rfl

lemma pollRideStatus_activeRideId (s : MachineState) (i : Input) :
    (pollRideStatus s i).activeRideId = s.activeRideId := by
  unfold pollRideStatus
  simp only []
  split
  · rfl
  split
  · split
    · rfl
    · split
      · rw [setState_activeRideId]
      · split
        · rw [setState_activeRideId]
        · split
          · rw [setState_activeRideId]
          · split
            · rw [setState_activeRideId]
            · rfl
  · split
    · rw [setState_activeRideId]
    · rfl

lemma pollRideStatus_state_cases (s : MachineState) (i : Input) :
    (pollRideStatus s i).currentState = s.currentState ∨
    (pollRideStatus s i).currentState ∈
      [STATE_RIDE_ACCEPTED, STATE_PICKUP_CONFIRMED, STATE_RIDE_COMPLETED,
       STATE_REJECTED_OR_ERROR] := by
  unfold pollRideStatus
  simp only []
  split
  · left; rfl
  split
  · split
    · left; rfl
    · split
      · right; rw [setState_currentState]; simp
      · split
        · right; rw [setState_currentState]; simp
        · split
          · right; rw [setState_currentState]; simp
          · split
            · right; rw [setState_currentState]; simp
            · left; rfl
  · split
    · right; rw [setState_currentState]; simp
    · left; rfl

/-! ## Claim C3: multiple simultaneously active destination sensors -/

lemma detectActiveBlockAux_eq_neg_one (l : List Bool) :
    ∀ k : Nat, (detectActiveBlockAux l k = -1 ↔ ∀ b ∈ l, b = false) := by
  induction l with
  | nil => intro k; simp [detectActiveBlockAux]
  | cons b rest ih =>
    intro k
    cases b
    · simpa [detectActiveBlockAux] using ih (k + 1)
    · simp only [detectActiveBlockAux, if_pos]
      constructor
      · intro h; omega
      · intro h
        exact absurd (h true (by simp)) (by simp)

lemma detectActiveBlockAux_found (l : List Bool) :
    ∀ (j k : Nat), l[j]? = some true → (∀ m, m < j → l[m]? ≠ some true) →
      detectActiveBlockAux l k = ((k + j : Nat) : Int) := by
  induction l with
  | nil => intro j k hj _; simp at hj
  | cons b rest ih =>
    intro j k hj hmin
    cases b
    · cases j with
      | zero => simp at hj
      | succ j' =>
        have hrec := ih j' (k + 1) (by simpa using hj)
          (fun m hm => by simpa using hmin (m + 1) (by omega))
        rw [show detectActiveBlockAux (false :: rest) k
              = detectActiveBlockAux rest (k + 1) by simp [detectActiveBlockAux]]
        rw [hrec]
        omega
    · have hj0 : j = 0 := by
        by_contra hne
        exact hmin 0 (by omega) (by simp)
      subst hj0
      simp [detectActiveBlockAux]

/-- C3: the claim says that with more than one destination sensor active
`detectActiveBlock` reports "none" (`-1`).  False: the source's scan
returns the first (lowest-index) pin reading `HIGH`; with sensors 0 and 1
both active it returns `0`, not `-1`. -/
theorem c3_counterexample :
    detectActiveBlock [true, true, false] = 0 ∧
    detectActiveBlock [true, true, false] ≠ -1 := by
  constructor <;> decide

/-- C3 (amended): when any number of destination sensors are active,
`detectActiveBlock` reports the lowest active index (a deterministic
lowest-index tie-break); it reports "none" (`-1`) exactly when no sensor
is active. -/
theorem c3_lowest_index_tiebreak (sensors : List Bool) :
    (detectActiveBlock sensors = -1 ↔ ∀ b ∈ sensors, b = false) ∧
    (∀ j : Nat, sensors[j]? = some true →
      (∀ m, m < j → sensors[m]? ≠ some true) →
      detectActiveBlock sensors = (j : Int)) := by
  constructor
  · exact detectActiveBlockAux_eq_neg_one sensors 0
  · intro j hj hmin
    simpa using detectActiveBlockAux_found sensors j 0 hj hmin

/-- Witness for the amended C3 at a concrete ambiguous reading. -/
theorem c3_lowest_index_tiebreak_witness :
    detectActiveBlock [false, true, true] = (1 : Int) :=
  (c3_lowest_index_tiebreak [false, true, true]).2 1 (by decide)
    (fun m hm => by interval_cases m <;> decide)

/-! ## Claim C6: privilege hysteresis -/

/-- C6: the hysteresis flag engages whenever the smoothed percentage
reaches or exceeds the high threshold, disengages whenever (engaged and)
the percentage is at or below the low threshold, and a percentage
strictly between the two thresholds never changes the flag. -/
theorem c6_hysteresis_thresholds (h : Bool) (p : ℚ) :
    (p ≥ LDR_PERCENT_THRESHOLD_HIGH → hysteresisUpdate h p = true) ∧
    (p ≤ LDR_PERCENT_THRESHOLD_LOW → hysteresisUpdate h p = false) ∧
    (LDR_PERCENT_THRESHOLD_LOW < p → p < LDR_PERCENT_THRESHOLD_HIGH →
      hysteresisUpdate h p = h) := by
  unfold hysteresisUpdate LDR_PERCENT_THRESHOLD_HIGH LDR_PERCENT_THRESHOLD_LOW
  refine ⟨?_, ?_, ?_⟩
  · intro hge
    have h8 : ¬(p ≤ 8) := by linarith
    cases h <;> simp_all
  · intro hle
    have h12 : ¬(p ≥ 12) := by linarith
    cases h <;> simp_all
  · intro hlo hhi
    have h8 : ¬(p ≤ 8) := by linarith
    have h12 : ¬(p ≥ 12) := by linarith
    cases h <;> simp_all

/-- Witness for C6 at concrete percentages on both sides and inside the
hysteresis band. -/
theorem c6_hysteresis_thresholds_witness :
    hysteresisUpdate false 15 = true ∧ hysteresisUpdate true 5 = false ∧
    hysteresisUpdate true 10 = true ∧ hysteresisUpdate false 10 = false :=
  ⟨(c6_hysteresis_thresholds false 15).1 (by norm_num [LDR_PERCENT_THRESHOLD_HIGH]),
   (c6_hysteresis_thresholds true 5).2.1 (by norm_num [LDR_PERCENT_THRESHOLD_LOW]),
   (c6_hysteresis_thresholds true 10).2.2
     (by norm_num [LDR_PERCENT_THRESHOLD_LOW]) (by norm_num [LDR_PERCENT_THRESHOLD_HIGH]),
   (c6_hysteresis_thresholds false 10).2.2
     (by norm_num [LDR_PERCENT_THRESHOLD_LOW]) (by norm_num [LDR_PERCENT_THRESHOLD_HIGH])⟩

/-! ## Claim C5: hold-duration bound and continuation-floor reset -/

lemma computeLaserPercent_currentLaserHoldMs (b : Int) (s : LaserState)
    (adc : Int) :
    (computeLaserPercent b s adc).1.currentLaserHoldMs = s.currentLaserHoldMs := by
  unfold computeLaserPercent
  dsimp only
  split <;> rfl

set_option maxHeartbeats 1000000 in
/-- C5: after any evaluation of the privilege verifier, the accumulated
hold duration never exceeds the fixed target (given it did not before),
and whenever the raw delta is below the continuation floor the hold
duration is reset to exactly 0. -/
theorem c5_hold_bound_and_reset (b : Int) (s : LaserState) (now : Nat)
    (adc : Int) :
    (s.currentLaserHoldMs ≤ LDR_HOLD_DURATION_MS →
      (detectLaserSignature b s now adc).1.currentLaserHoldMs ≤ LDR_HOLD_DURATION_MS) ∧
    (max 0 (adc - b) < LDR_ADC_CONTINUE_DELTA →
      (detectLaserSignature b s now adc).1.currentLaserHoldMs = 0) := by
  constructor
  · intro hpre
    unfold detectLaserSignature
    generalize hpr : computeLaserPercent b s adc = pr0
    obtain ⟨s1, pct⟩ := pr0
    have hh : s1.currentLaserHoldMs = s.currentLaserHoldMs := by
      have hkeep := computeLaserPercent_currentLaserHoldMs b s adc
      rw [hpr] at hkeep
      exact hkeep
    clear hpr
    simp only []
    split_ifs <;> simp_all
  · intro hdelta
    unfold LDR_ADC_CONTINUE_DELTA at hdelta
    have h45 : ¬(max 0 (adc - b) ≥ LDR_MIN_ABS_DELTA) := by
      unfold LDR_MIN_ABS_DELTA
      omega
    have h18 : ¬(max 0 (adc - b) ≥ LDR_ADC_CONTINUE_DELTA) := by
      unfold LDR_ADC_CONTINUE_DELTA
      omega
    unfold detectLaserSignature
    generalize hpr : computeLaserPercent b s adc = pr0
    obtain ⟨s1, pct⟩ := pr0
    clear hpr
    simp only []
    rw [if_neg (by simp [h45, h18])]
    rw [if_neg (by simp [h18])]

/-- Witness for C5: from a freshly reset laser state, a strong sample
keeps the hold within the target, and a sample with delta below the
continuation floor leaves the hold at exactly 0. -/
theorem c5_hold_bound_and_reset_witness :
    (detectLaserSignature 0 ⟨false, 0, 0, 0, 4200, 0, false, false, 0⟩
        5000 100).1.currentLaserHoldMs ≤ LDR_HOLD_DURATION_MS ∧
    (detectLaserSignature 0 ⟨false, 0, 0, 0, 4200, 0, false, false, 0⟩
        5000 10).1.currentLaserHoldMs = 0 :=
  ⟨(c5_hold_bound_and_reset 0 ⟨false, 0, 0, 0, 4200, 0, false, false, 0⟩
      5000 100).1 (by decide),
   (c5_hold_bound_and_reset 0 ⟨false, 0, 0, 0, 4200, 0, false, false, 0⟩
      5000 10).2 (by decide)⟩

/-! ## Claim C2: malformed remote responses -/

/-- C2: the claim says a malformed/unparsable response to a status poll
also sends the coordinator to `STATE_REJECTED_OR_ERROR`.  False: with a
ride outstanding and an HTTP 200 poll response that fails to parse, the
coordinator stays in `STATE_WAITING_PULLER` (the source returns early,
before any state change, on `deserializeJson` failure). -/
theorem c2_counterexample :
    (updateStateMachine
        { bootState with currentState := STATE_WAITING_PULLER
                         activeRideId := "r1"
                         requestIssuedAt := 1000
                         lastStatusPollAt := 0 }
        { mkInput 5000 5 true [false, false, false] 0 with
            pollResp := { httpCode := 200, parseOk := false, status := none } }).1.currentState
      = STATE_WAITING_PULLER ∧
    STATE_WAITING_PULLER ≠ STATE_REJECTED_OR_ERROR := by
  constructor
  · decide
  · decide

/-- C2 (amended): a malformed response to the create-ride dispatch call
(HTTP 201 whose body fails to parse) sends the coordinator to
`STATE_REJECTED_OR_ERROR` with no automatic retry; a malformed response
to a status poll leaves the machine state entirely unchanged, and the
device keeps polling from its current state until the absolute request
timeout closes the cycle. -/
theorem c2_parse_failure_paths (s : MachineState) (i : Input) :
    (s.latchedBlockIndex ≥ 0 → i.postResp.httpCode = 201 →
      i.postResp.parseOk = false →
      ((sendRideRequest s i).1.currentState = STATE_REJECTED_OR_ERROR ∧
       (sendRideRequest s i).2 = true)) ∧
    (i.pollResp.httpCode = 200 → i.pollResp.parseOk = false →
      pollRideStatus s i = s) := by
  constructor
  · intro hlat h201 hbad
    unfold sendRideRequest
    rw [if_neg (by omega), if_pos h201]
    simp [hbad, setState_currentState]
  · intro h200 hbad
    unfold pollRideStatus
    by_cases hid : s.activeRideId = ""
    · rw [if_pos hid]
    · rw [if_neg hid, if_pos h200]
      simp [hbad]

/-- Witness for the amended C2 at concrete malformed responses. -/
theorem c2_parse_failure_paths_witness :
    (sendRideRequest
        { bootState with currentState := STATE_DISPATCHING, latchedBlockIndex := 0 }
        { mkInput 1000 5 true [false, false, false] 0 with
            postResp := { httpCode := 201, parseOk := false, rideId := ""
                          pickupName := "", destinationName := "" } }).1.currentState
      = STATE_REJECTED_OR_ERROR ∧
    pollRideStatus
        { bootState with currentState := STATE_WAITING_PULLER, activeRideId := "r1" }
        { mkInput 1000 5 true [false, false, false] 0 with
            pollResp := { httpCode := 200, parseOk := false, status := none } }
      = { bootState with currentState := STATE_WAITING_PULLER, activeRideId := "r1" } :=
  ⟨((c2_parse_failure_paths _ _).1 (by decide) rfl rfl).1,
   (c2_parse_failure_paths _ _).2 rfl rfl⟩

/-! ## Claim C9: the status-poll mapping -/

/-- C9: every successfully parsed status poll follows the documented
mapping — accepted to `STATE_RIDE_ACCEPTED`; pickup_confirmed or
in_progress to `STATE_PICKUP_CONFIRMED`; completed to
`STATE_RIDE_COMPLETED`; rejected or cancelled to
`STATE_REJECTED_OR_ERROR`; and a not-found (HTTP 404) response to
`STATE_REJECTED_OR_ERROR`. -/
theorem c9_poll_status_mapping (s : MachineState) (i : Input)
    (hid : s.activeRideId ≠ "") :
    ((i.pollResp.httpCode = 200 ∧ i.pollResp.parseOk = true) →
      ((i.pollResp.status.getD "pending" = "accepted" →
        (pollRideStatus s i).currentState = STATE_RIDE_ACCEPTED) ∧
       (i.pollResp.status.getD "pending" = "pickup_confirmed" ∨
        i.pollResp.status.getD "pending" = "in_progress" →
        (pollRideStatus s i).currentState = STATE_PICKUP_CONFIRMED) ∧
       (i.pollResp.status.getD "pending" = "completed" →
        (pollRideStatus s i).currentState = STATE_RIDE_COMPLETED) ∧
       (i.pollResp.status.getD "pending" = "rejected" ∨
        i.pollResp.status.getD "pending" = "cancelled" →
        (pollRideStatus s i).currentState = STATE_REJECTED_OR_ERROR))) ∧
    (i.pollResp.httpCode = 404 →
      (pollRideStatus s i).currentState = STATE_REJECTED_OR_ERROR) := by
  constructor
  · rintro ⟨h200, hok⟩
    refine ⟨?_, ?_, ?_, ?_⟩
    · intro hst
      unfold pollRideStatus
      rw [if_neg hid, if_pos h200]
      simp [hok, hst, setState_currentState]
    · intro hst
      unfold pollRideStatus
      rw [if_neg hid, if_pos h200]
      rcases hst with hst | hst <;> simp [hok, hst, setState_currentState]
    · intro hst
      unfold pollRideStatus
      rw [if_neg hid, if_pos h200]
      simp [hok, hst, setState_currentState]
    · intro hst
      unfold pollRideStatus
      rw [if_neg hid, if_pos h200]
      rcases hst with hst | hst <;> simp [hok, hst, setState_currentState]
  · intro h404
    unfold pollRideStatus
    rw [if_neg hid]
    rw [if_neg (by rw [h404]; decide), if_pos h404]
    exact setState_currentState _ _ _ _

/-- Witness for C9 at a concrete accepted poll and a concrete 404. -/
theorem c9_poll_status_mapping_witness :
    (pollRideStatus
        { bootState with currentState := STATE_WAITING_PULLER, activeRideId := "r1" }
        { mkInput 1000 5 true [false, false, false] 0 with
            pollResp := { httpCode := 200, parseOk := true, status := some "accepted" } }).currentState
      = STATE_RIDE_ACCEPTED ∧
    (pollRideStatus
        { bootState with currentState := STATE_WAITING_PULLER, activeRideId := "r1" }
        { mkInput 1000 5 true [false, false, false] 0 with
            pollResp := { httpCode := 404, parseOk := false, status := none } }).currentState
      = STATE_REJECTED_OR_ERROR :=
  ⟨(((c9_poll_status_mapping _ _ (by decide)).1 ⟨rfl, rfl⟩).1 rfl),
   ((c9_poll_status_mapping _ _ (by decide)).2 rfl)⟩

/-! ## Claim C10: frame effect of a pending/unrecognized poll -/

/-- C10: an HTTP 200 status poll whose (possibly defaulted) status string
is "pending" or anything unrecognized leaves the coordinator state, the
cached ride identifier, and the latched destination all unchanged. -/
theorem c10_pending_poll_frame (s : MachineState) (i : Input)
    (h200 : i.pollResp.httpCode = 200) (hok : i.pollResp.parseOk = true)
    (hst : i.pollResp.status.getD "pending" ∉
      (["accepted", "pickup_confirmed", "in_progress", "completed",
        "rejected", "cancelled"] : List String)) :
    (pollRideStatus s i).currentState = s.currentState ∧
    (pollRideStatus s i).activeRideId = s.activeRideId ∧
    (pollRideStatus s i).latchedBlockIndex = s.latchedBlockIndex := by
  simp only [List.mem_cons, List.not_mem_nil, or_false, not_or] at hst
  obtain ⟨h1, h2, h3, h4, h5, h6⟩ := hst
  unfold pollRideStatus
  by_cases hid : s.activeRideId = ""
  · rw [if_pos hid]
    exact ⟨rfl, rfl, rfl⟩
  · rw [if_neg hid, if_pos h200]
    simp [hok, h1, h2, h3, h4, h5, h6]

/-- Witness for C10 at a concrete pending poll (absent status field). -/
theorem c10_pending_poll_frame_witness :
    (pollRideStatus
        { bootState with currentState := STATE_WAITING_PULLER, activeRideId := "r1" }
        { mkInput 1000 5 true [false, false, false] 0 with
            pollResp := { httpCode := 200, parseOk := true, status := none } }).currentState
      = STATE_WAITING_PULLER :=
  (c10_pending_poll_frame
    { bootState with currentState := STATE_WAITING_PULLER, activeRideId := "r1" }
    _ rfl rfl (by decide)).1

/-! ## Claim C1: latched-destination stability -/

lemma resetPresenceTracking_latchedBlockIndex (s : MachineState) :
    (resetPresenceTracking s).latchedBlockIndex = s.latchedBlockIndex := rfl

lemma sendRideRequest_latchedBlockIndex (s : MachineState) (i : Input) :
    (sendRideRequest s i).1.latchedBlockIndex = s.latchedBlockIndex ∨
    (sendRideRequest s i).1.latchedBlockIndex = -1 := by
  unfold sendRideRequest
  split_ifs
  · right
    exact resetSystem_latchedBlockIndex _ _
  · left
    rw [setState_latchedBlockIndex]
  · left
    rw [setState_latchedBlockIndex]
  · left
    rw [setState_latchedBlockIndex]

lemma sendRideRequest_setState_latched (s' : MachineState) (i : Input)
    (now : Nat) (b : Int) :
    (sendRideRequest (setState s' now b STATE_DISPATCHING) i).1.latchedBlockIndex
      = s'.latchedBlockIndex ∨
    (sendRideRequest (setState s' now b STATE_DISPATCHING) i).1.latchedBlockIndex
      = -1 := by
  rcases sendRideRequest_latchedBlockIndex (setState s' now b STATE_DISPATCHING) i with h | h
  · left
    rw [h, setState_latchedBlockIndex]
  · right
    exact h

/-- Inputs driving the machine from boot to a first latched destination
(block 0): presence at 1000 ms, dwell complete at 7000 ms, plate 0 held
from 7000 ms to 7700 ms. -/
def c1Inputs1 : List Input :=
  [ mkInput 1000 5 true [false, false, false] 2000,
    mkInput 7000 5 true [false, false, false] 2000,
    mkInput 7000 5 true [true, false, false] 2000,
    mkInput 7700 5 true [true, false, false] 2000 ]

/-- Inputs completing laser verification on block 0, then stepping on
plate 1 during `STATE_WAITING_CONFIRM` and holding it: the machine
re-latches destination 1 with no intervening cycle reset. -/
def c1Inputs2 : List Input :=
  [ mkInput 8000 5 true [true, false, false] 2000,
    mkInput 8300 5 true [true, false, false] 2000,
    mkInput 12500 5 true [true, false, false] 2000,
    mkInput 12600 5 true [false, true, false] 2000,
    mkInput 13300 5 true [false, true, false] 2000 ]

unseal Rat.add Rat.mul Rat.inv Rat.ofScientific in
/-- C1: the claim says that once `latchedBlockIndex` is set it is never
reassigned to a different block until the cycle resets via success,
timeout or explicit reset.  False: after latching block 0 and passing
laser verification, activating plate 1 in `STATE_WAITING_CONFIRM` sends
the machine back to `STATE_WAITING_BLOCK`, which re-latches
`latchedBlockIndex` to 1 — and the intermediate trace below never passes
through `STATE_IDLE` (reset), a success state or a timeout. -/
theorem c1_counterexample :
    (runMachine bootState c1Inputs1).latchedBlockIndex = 0 ∧
    (runMachine (runMachine bootState c1Inputs1) c1Inputs2).latchedBlockIndex = 1 ∧
    stateTrace (runMachine bootState c1Inputs1) c1Inputs2 =
      [STATE_WAITING_LASER, STATE_WAITING_LASER, STATE_WAITING_CONFIRM,
       STATE_WAITING_BLOCK, STATE_WAITING_LASER] :=
  ⟨by decide, by decide, by decide⟩

/-- C1 (amended): in any single step, `latchedBlockIndex` is either left
unchanged, or cleared to `-1` (by a reset or by re-entering presence
tracking from idle), or — exactly when the step starts in
`STATE_WAITING_BLOCK` — assigned the debounced candidate block.  In
particular a latched destination can change within a cycle only by the
machine first returning to `STATE_WAITING_BLOCK` (which the
destination-change branch of `STATE_WAITING_CONFIRM` does). -/
theorem c1_latched_assignment_sites (s : MachineState) (i : Input) :
    (updateStateMachine s i).1.latchedBlockIndex = s.latchedBlockIndex ∨
    (updateStateMachine s i).1.latchedBlockIndex = -1 ∨
    (s.currentState = STATE_WAITING_BLOCK ∧
     (updateStateMachine s i).1.latchedBlockIndex = s.candidateBlockIndex) := by
  unfold updateStateMachine
  cases hc : s.currentState <;> dsimp only
  all_goals try split_ifs
  all_goals try exact Or.inl rfl
  all_goals try (refine Or.inl ?_; simp [setState_latchedBlockIndex,
    resetPresenceTracking_latchedBlockIndex]; done)
  all_goals try (refine Or.inr (Or.inl ?_); exact resetSystem_latchedBlockIndex _ _)
  all_goals try (refine Or.inr (Or.inl ?_); simp [setState_latchedBlockIndex,
    resetPresenceTracking_latchedBlockIndex]; done)
  all_goals try (refine Or.inr (Or.inr ⟨rfl, ?_⟩); simp [setState_latchedBlockIndex]; done)
  all_goals try (refine Or.inl ?_; exact pollRideStatus_latchedBlockIndex _ _)
  all_goals exact (sendRideRequest_setState_latched _ _ _ _).imp id Or.inl

/-! ## Claim C8: timeout closure and single dispatch per cycle -/

/-- The coordinator states from dispatch onward: every state reachable
after a create-ride request has been issued, up to the cycle-ending
return to `STATE_IDLE`. -/
def postDispatchStates : List SystemState :=
  [STATE_WAITING_PULLER, STATE_RIDE_ACCEPTED, STATE_PICKUP_CONFIRMED,
   STATE_RIDE_COMPLETED, STATE_REJECTED_OR_ERROR]

lemma pollRideStatus_state_closure (s : MachineState) (i : Input)
    (hs : s.currentState ∈ postDispatchStates) :
    (pollRideStatus s i).currentState ∈ postDispatchStates := by
  rcases pollRideStatus_state_cases s i with h | h
  · rw [h]
    exact hs
  · simp only [postDispatchStates, List.mem_cons, List.not_mem_nil, or_false] at h ⊢
    tauto

/-- C8: (a) a step taken in `STATE_WAITING_PULLER` with a cached ride id
whose clock has reached the absolute timeout `W = REQUEST_TIMEOUT_MS`
(measured from `requestIssuedAt`, the issuance instant stamped just
before entering the state) lands in `STATE_REJECTED_OR_ERROR`; (b) from
any post-dispatch state no step issues a create-ride POST, and the
machine stays among the post-dispatch states until the cycle-ending
reset to `STATE_IDLE` — so a second request would require a fresh cycle
through `STATE_IDLE`. -/
theorem c8_timeout_and_single_dispatch (s : MachineState) (i : Input) :
    (s.currentState = STATE_WAITING_PULLER → s.activeRideId ≠ "" →
      i.now - s.requestIssuedAt ≥ REQUEST_TIMEOUT_MS →
      (updateStateMachine s i).1.currentState = STATE_REJECTED_OR_ERROR) ∧
    (s.currentState ∈ postDispatchStates →
      (updateStateMachine s i).2 = false ∧
      ((updateStateMachine s i).1.currentState ∈ postDispatchStates ∨
       (updateStateMachine s i).1.currentState = STATE_IDLE)) := by
  constructor
  · intro hc hid htime
    unfold updateStateMachine
    rw [hc]
    dsimp only
    rw [if_neg hid, if_pos htime]
    exact setState_currentState _ _ _ _
  · intro hmem
    simp only [postDispatchStates, List.mem_cons, List.not_mem_nil, or_false] at hmem
    unfold updateStateMachine
    rcases hmem with hc | hc | hc | hc | hc
    all_goals rw [hc]
    all_goals dsimp only
    all_goals try split_ifs
    all_goals refine ⟨rfl, ?_⟩
    all_goals try exact Or.inr (resetSystem_currentState _ _)
    all_goals try (refine Or.inl ?_; rw [setState_currentState]; simp [postDispatchStates]; done)
    all_goals try (refine Or.inl (pollRideStatus_state_closure s i ?_); simp [postDispatchStates, hc]; done)
    all_goals (refine Or.inl ?_; simp [postDispatchStates, hc]; done)

/-- Witness for C8: a concrete machine in `STATE_WAITING_PULLER` with an
active ride id, stepped at exactly `requestIssuedAt + REQUEST_TIMEOUT_MS`,
lands in `STATE_REJECTED_OR_ERROR` and issues no POST. -/
theorem c8_timeout_and_single_dispatch_witness :
    (updateStateMachine
        { bootState with currentState := STATE_WAITING_PULLER
                         activeRideId := "r1"
                         requestIssuedAt := 0
                         lastStatusPollAt := 0 }
        (mkInput 60000 5 true [false, false, false] 0)).1.currentState
      = STATE_REJECTED_OR_ERROR ∧
    (updateStateMachine
        { bootState with currentState := STATE_WAITING_PULLER
                         activeRideId := "r1"
                         requestIssuedAt := 0
                         lastStatusPollAt := 0 }
        (mkInput 60000 5 true [false, false, false] 0)).2 = false :=
  ⟨(c8_timeout_and_single_dispatch _ _).1 rfl (by decide) (by decide),
   ((c8_timeout_and_single_dispatch _ _).2 (by decide)).1⟩

/-! ## Claim C4: dwell accumulation in presence tracking -/

lemma runMachine_append (s : MachineState) (l1 l2 : List Input) :
    runMachine s (l1 ++ l2) = runMachine (runMachine s l1) l2 := by
  simp [runMachine, List.foldl_append]

lemma requiredHoldDurationMs_pos (dist : ℚ) : 0 < requiredHoldDurationMs dist := by
  unfold requiredHoldDurationMs HOLD_TIME_NEAR_MS HOLD_TIME_FAR_MS
  split <;> omega

/-- A presence-tracking sampling run: `k` stable in-range samples at the
fixed distance `dist`, spaced `d` ms apart starting `d` after `t0`, with
no destination plate active and the confirm control released. -/
def presenceRun (dist : ℚ) (t0 d k : Nat) : List Input :=
  (List.range k).map (fun j => mkInput (t0 + (j + 1) * d) dist true [false, false, false] 0)

lemma presenceRun_succ (dist : ℚ) (t0 d k : Nat) :
    presenceRun dist t0 d (k + 1) =
      presenceRun dist t0 d k ++ [mkInput (t0 + (k + 1) * d) dist true [false, false, false] 0] := by
  unfold presenceRun
  rw [List.range_succ, List.map_append]
  rfl

/-- One stable in-range sample in `STATE_PRESENCE_TRACKING`: dwell
advances by the elapsed delta, clamped at the target, and the machine
moves to `STATE_WAITING_BLOCK` exactly on reaching the target. -/
lemma presence_tracking_stable_step (s : MachineState) (n : Nat) (dist : ℚ)
    (hin : isWithinPresenceRange dist = true)
    (hs : s.currentState = STATE_PRESENCE_TRACKING)
    (hl : s.lastPresenceSampleAt ≠ 0) :
    (s.presenceProgressMs + (n - s.lastPresenceSampleAt) ≥ requiredHoldDurationMs dist →
      (updateStateMachine s (mkInput n dist true [false, false, false] 0)).1.presenceProgressMs
          = requiredHoldDurationMs dist ∧
      (updateStateMachine s (mkInput n dist true [false, false, false] 0)).1.currentState
          = STATE_WAITING_BLOCK) ∧
    (s.presenceProgressMs + (n - s.lastPresenceSampleAt) < requiredHoldDurationMs dist →
      (updateStateMachine s (mkInput n dist true [false, false, false] 0)).1.presenceProgressMs
          = s.presenceProgressMs + (n - s.lastPresenceSampleAt) ∧
      (updateStateMachine s (mkInput n dist true [false, false, false] 0)).1.currentState
          = STATE_PRESENCE_TRACKING ∧
      (updateStateMachine s (mkInput n dist true [false, false, false] 0)).1.lastPresenceSampleAt
          = n) := by
  constructor
  · intro hge
    unfold updateStateMachine
    rw [hs]
    dsimp only
    simp only [mkInput, hin, Bool.not_true, Bool.false_eq_true, if_false, if_neg hl]
    have hclamp : (if s.presenceProgressMs + (n - s.lastPresenceSampleAt) >
        requiredHoldDurationMs dist then requiredHoldDurationMs dist
        else s.presenceProgressMs + (n - s.lastPresenceSampleAt)) = requiredHoldDurationMs dist := by
      split <;> omega
    rw [hclamp]
    rw [if_pos (show requiredHoldDurationMs dist ≥ requiredHoldDurationMs dist from le_refl _)]
    exact ⟨rfl, rfl⟩
  · intro hlt
    unfold updateStateMachine
    rw [hs]
    dsimp only
    simp only [mkInput, hin, Bool.not_true, Bool.false_eq_true, if_false, if_neg hl]
    have hclamp : (if s.presenceProgressMs + (n - s.lastPresenceSampleAt) >
        requiredHoldDurationMs dist then requiredHoldDurationMs dist
        else s.presenceProgressMs + (n - s.lastPresenceSampleAt))
        = s.presenceProgressMs + (n - s.lastPresenceSampleAt) := by
      split <;> omega
    rw [hclamp]
    rw [if_neg (show ¬(s.presenceProgressMs + (n - s.lastPresenceSampleAt) ≥
      requiredHoldDurationMs dist) by omega)]
    exact ⟨rfl, rfl, rfl⟩

/-- A stable sample with no plate active in `STATE_WAITING_BLOCK` leaves
the dwell counter and the state untouched. -/
lemma waiting_block_idle_step (s : MachineState) (n : Nat) (dist : ℚ)
    (hs : s.currentState = STATE_WAITING_BLOCK) :
    (updateStateMachine s (mkInput n dist true [false, false, false] 0)).1.presenceProgressMs
        = s.presenceProgressMs ∧
    (updateStateMachine s (mkInput n dist true [false, false, false] 0)).1.currentState
        = STATE_WAITING_BLOCK := by
  unfold updateStateMachine
  rw [hs]
  dsimp only
  simp only [mkInput, Bool.not_true, Bool.false_eq_true, if_false]
  rw [if_pos (by decide : detectActiveBlock [false, false, false] < 0)]
  exact ⟨rfl, rfl⟩

lemma presence_run_invariant (dist : ℚ) (t0 d : Nat)
    (hin : isWithinPresenceRange dist = true) (ht0 : 0 < t0) :
    ∀ (k : Nat) (s : MachineState),
      s.currentState = STATE_PRESENCE_TRACKING →
      s.presenceProgressMs = 0 → s.lastPresenceSampleAt = t0 →
      (runMachine s (presenceRun dist t0 d k)).presenceProgressMs
          = min (requiredHoldDurationMs dist) (k * d) ∧
      ((runMachine s (presenceRun dist t0 d k)).currentState = STATE_PRESENCE_TRACKING ∧
         (runMachine s (presenceRun dist t0 d k)).lastPresenceSampleAt = t0 + k * d ∧
         k * d < requiredHoldDurationMs dist ∨
       (runMachine s (presenceRun dist t0 d k)).currentState = STATE_WAITING_BLOCK ∧
         requiredHoldDurationMs dist ≤ k * d) := by
  intro k
  induction k with
  | zero =>
    intro s hs hp hl
    have hpos := requiredHoldDurationMs_pos dist
    unfold presenceRun
    simp only [List.range_zero, List.map_nil]
    refine ⟨by simpa [runMachine] using hp, Or.inl ⟨by simpa [runMachine] using hs, ?_, by omega⟩⟩
    simpa [runMachine] using hl
  | succ k ih =>
    intro s hs hp hl
    obtain ⟨ihp, ihrest⟩ := ih s hs hp hl
    rw [presenceRun_succ, runMachine_append]
    have hstep : runMachine (runMachine s (presenceRun dist t0 d k))
        [mkInput (t0 + (k + 1) * d) dist true [false, false, false] 0]
        = (updateStateMachine (runMachine s (presenceRun dist t0 d k))
            (mkInput (t0 + (k + 1) * d) dist true [false, false, false] 0)).1 := rfl
    rw [hstep]
    rcases ihrest with ⟨hcs, hla, hlt⟩ | ⟨hcs, hge⟩
    · have hmin : min (requiredHoldDurationMs dist) (k * d) = k * d := by omega
      rw [hmin] at ihp
      have hane : (runMachine s (presenceRun dist t0 d k)).lastPresenceSampleAt ≠ 0 := by
        rw [hla]
        omega
      have hdelta : (t0 + (k + 1) * d) -
          (runMachine s (presenceRun dist t0 d k)).lastPresenceSampleAt = d := by
        rw [hla]
        have : (k + 1) * d = k * d + d := by ring
        omega
      obtain ⟨hhi, hlo⟩ := presence_tracking_stable_step
        (runMachine s (presenceRun dist t0 d k)) (t0 + (k + 1) * d) dist hin hcs hane
      by_cases hcase : k * d + d ≥ requiredHoldDurationMs dist
      · obtain ⟨hprog, hstate⟩ := hhi (by rw [ihp, hdelta]; exact hcase)
        refine ⟨?_, Or.inr ⟨hstate, ?_⟩⟩
        · rw [hprog]
          have : (k + 1) * d = k * d + d := by ring
          omega
        · have : (k + 1) * d = k * d + d := by ring
          omega
      · obtain ⟨hprog, hstate, hlast⟩ := hlo (by rw [ihp, hdelta]; omega)
        refine ⟨?_, Or.inl ⟨hstate, ?_, ?_⟩⟩
        · rw [hprog, ihp, hdelta]
          have : (k + 1) * d = k * d + d := by ring
          omega
        · exact hlast
        · have : (k + 1) * d = k * d + d := by ring
          omega
    · obtain ⟨hprog, hstate⟩ := waiting_block_idle_step
        (runMachine s (presenceRun dist t0 d k)) (t0 + (k + 1) * d) dist hcs
      have hmul : (k + 1) * d = k * d + d := by ring
      refine ⟨?_, Or.inr ⟨hstate, by omega⟩⟩
      rw [hprog, ihp]
      omega

/-- C4: starting a presence-tracking cycle at time `t0` with zero dwell,
any `k` consecutive stable in-range samples spaced `d` ms apart leave the
accumulated dwell at exactly `min(target, k*d)` (the machine having moved
on to `STATE_WAITING_BLOCK` exactly when the target was reached); and any
present-but-unstable sample resets the dwell to 0 while remaining in
`STATE_PRESENCE_TRACKING`. -/
theorem c4_dwell_accumulation (dist : ℚ) (t0 d k : Nat) (s : MachineState)
    (hin : isWithinPresenceRange dist = true) (ht0 : 0 < t0)
    (hs : s.currentState = STATE_PRESENCE_TRACKING)
    (hp : s.presenceProgressMs = 0) (hl : s.lastPresenceSampleAt = t0) :
    (runMachine s (presenceRun dist t0 d k)).presenceProgressMs
        = min (requiredHoldDurationMs dist) (k * d) ∧
    (∀ (s2 : MachineState) (n : Nat), s2.currentState = STATE_PRESENCE_TRACKING →
      ((updateStateMachine s2 (mkInput n dist false [false, false, false] 0)).1.presenceProgressMs
          = 0 ∧
       (updateStateMachine s2 (mkInput n dist false [false, false, false] 0)).1.currentState
          = STATE_PRESENCE_TRACKING)) := by
  constructor
  · exact (presence_run_invariant dist t0 d hin ht0 k s hs hp hl).1
  · intro s2 n hs2
    unfold updateStateMachine
    rw [hs2]
    dsimp only
    simp only [mkInput, hin, Bool.not_true, Bool.not_false, Bool.false_eq_true, if_false, if_true]
    constructor <;> trivial

unseal Rat.add Rat.ofScientific in
/-- Witness for C4: 3 stable samples 1000 ms apart at 5 cm (near tier,
5000 ms target) accumulate exactly 3000 ms; an unstable sample resets the
dwell to 0 without leaving `STATE_PRESENCE_TRACKING`. -/
theorem c4_dwell_accumulation_witness :
    (runMachine { bootState with currentState := STATE_PRESENCE_TRACKING
                                 lastPresenceSampleAt := 100 }
        (presenceRun 5 100 1000 3)).presenceProgressMs
      = min (requiredHoldDurationMs 5) (3 * 1000) :=
  (c4_dwell_accumulation 5 100 1000 3 _ (by decide) (by decide) rfl rfl rfl).1

/-! ## Claim C7: confirm events vs abnormal-hold -/

/-- A fresh press edge: from an idle gate, a press sample at `p` (past
the debounce window) registers the press and starts the duration
tracker. -/
lemma confirmButtonPressed_first_press (lc p : Nat)
    (hdeb : lc + BUTTON_DEBOUNCE_MS < p) :
    confirmButtonPressed ⟨false, lc, 0, false⟩ p true
      = (⟨true, p, p, false⟩, false) := by
  have hp : 0 < p := by unfold BUTTON_DEBOUNCE_MS at hdeb; omega
  unfold confirmButtonPressed
  simp only []
  have h1 : (if (true && decide ((⟨false, lc, 0, false⟩ : BtnState).buttonPressStartAt = 0)) = true
      then p else (⟨false, lc, 0, false⟩ : BtnState).buttonPressStartAt) = p := by simp
  simp [hp, Nat.sub_self, hdeb, BUTTON_HOLD_TIMEOUT_MS]
  omega

/-- A held sample: the press-start is retained and the abnormal-hold
flag is raised exactly when the tracked duration has passed the hold
timeout. -/
lemma confirmButtonPressed_held_step (p t : Nat) (hp : 0 < p) (f : Bool) :
    confirmButtonPressed ⟨true, p, p, f⟩ t true
      = (⟨true, p, p, f || decide (t - p > BUTTON_HOLD_TIMEOUT_MS)⟩, false) := by
  unfold confirmButtonPressed
  have hp0 : ¬(p = 0) := by omega
  by_cases ht : t - p > BUTTON_HOLD_TIMEOUT_MS <;> simp [hp0, hp, ht]

/-- The release sample, by cases on the debounced duration: a long
press raises the abnormal-hold flag and yields no confirm; a short press
(past debounce) yields exactly one confirm; a bouncing release inside the
debounce window is ignored. -/
lemma confirmButtonPressed_release (p rt : Nat) (g : Bool) (hp : 0 < p) :
    (BUTTON_DEBOUNCE_MS < rt - p → BUTTON_HOLD_TIMEOUT_MS ≤ rt - p →
      confirmButtonPressed ⟨true, p, p, g⟩ rt false = (⟨false, rt, 0, true⟩, false)) ∧
    (BUTTON_DEBOUNCE_MS < rt - p → rt - p < BUTTON_HOLD_TIMEOUT_MS →
      confirmButtonPressed ⟨true, p, p, g⟩ rt false = (⟨false, rt, 0, g⟩, true)) ∧
    (¬(BUTTON_DEBOUNCE_MS < rt - p) →
      confirmButtonPressed ⟨true, p, p, g⟩ rt false = (⟨true, p, p, g⟩, false)) := by
  have hp0 : ¬(p = 0) := by omega
  refine ⟨?_, ?_, ?_⟩
  · intro hd hlong
    unfold confirmButtonPressed
    simp [hp0, hp, hd, hlong, Nat.not_lt.mpr hlong]
  · intro hd hshort
    unfold confirmButtonPressed
    simp [hp0, hp, hd, Nat.not_le.mpr hshort, Nat.lt_of_lt_of_le hshort (le_refl _)]
  · intro hd
    unfold confirmButtonPressed
    simp [hp0, hp, hd]

/-- The held phase of a press: every held sample returns no confirm and
the abnormal-hold flag accumulates whether any sample exceeded the
timeout. -/
lemma runButton_held (p : Nat) (hp : 0 < p) (rest2 : List (Nat × Bool)) :
    ∀ (ts : List Nat) (f : Bool),
      runButton ⟨true, p, p, f⟩ (ts.map (fun t => (t, true)) ++ rest2)
        = runButton ⟨true, p, p,
            f || ts.any (fun t => decide (t - p > BUTTON_HOLD_TIMEOUT_MS))⟩ rest2 := by
  intro ts
  induction ts with
  | nil => intro f; simp
  | cons t ts ih =>
    intro f
    simp only [List.map_cons, List.cons_append, runButton,
      confirmButtonPressed_held_step p t hp f, List.append_eq]
    rw [ih (f || decide (t - p > BUTTON_HOLD_TIMEOUT_MS))]
    simp [List.any_cons, Bool.or_assoc]

/-- A whole press trace reduces to the single release evaluation from
the held-phase state. -/
lemma runButton_pressTrace (s0 : BtnState) (p rt : Nat) (heldRest : List Nat)
    (h0 : s0.buttonPressStartAt = 0) (hflag : s0.buttonHoldTimeoutTriggered = false)
    (hstable : s0.lastStableState = false)
    (hdeb : s0.lastChange + BUTTON_DEBOUNCE_MS < p) :
    runButton s0 (pressTrace p heldRest rt)
      = ((confirmButtonPressed ⟨true, p, p,
            heldRest.any (fun t => decide (t - p > BUTTON_HOLD_TIMEOUT_MS))⟩ rt false).1,
         if (confirmButtonPressed ⟨true, p, p,
            heldRest.any (fun t => decide (t - p > BUTTON_HOLD_TIMEOUT_MS))⟩ rt false).2
         then 1 else 0) := by
  have hp : 0 < p := by unfold BUTTON_DEBOUNCE_MS at hdeb; omega
  obtain ⟨ls, lc, ps, bf⟩ := s0
  simp only at h0 hflag hstable hdeb
  subst h0 hflag hstable
  unfold pressTrace
  simp only [runButton, confirmButtonPressed_first_press lc p hdeb]
  rw [runButton_held p hp [(rt, false)] heldRest false]
  simp [runButton]

/-- C7: over one full press of the confirm control (press at `p`, held
samples, release at `rt`): at most one confirm event fires; a confirm
event and the abnormal-hold condition are mutually exclusive; holding to
or beyond the hold timeout raises abnormal-hold and never a confirm even
though the control is released; and a debounced release short of the
timeout yields exactly one confirm with no abnormal-hold. -/
theorem c7_confirm_and_hold_exclusive (s0 : BtnState) (p rt : Nat)
    (heldRest : List Nat)
    (h0 : s0.buttonPressStartAt = 0) (hflag : s0.buttonHoldTimeoutTriggered = false)
    (hstable : s0.lastStableState = false)
    (hdeb : s0.lastChange + BUTTON_DEBOUNCE_MS < p)
    (hheld : ∀ t ∈ heldRest, t ≤ rt) :
    ((runButton s0 (pressTrace p heldRest rt)).2 ≤ 1) ∧
    ((runButton s0 (pressTrace p heldRest rt)).2 = 1 →
      (runButton s0 (pressTrace p heldRest rt)).1.buttonHoldTimeoutTriggered = false) ∧
    (BUTTON_HOLD_TIMEOUT_MS ≤ rt - p →
      (runButton s0 (pressTrace p heldRest rt)).2 = 0 ∧
      (runButton s0 (pressTrace p heldRest rt)).1.buttonHoldTimeoutTriggered = true) ∧
    (BUTTON_DEBOUNCE_MS < rt - p → rt - p < BUTTON_HOLD_TIMEOUT_MS →
      (runButton s0 (pressTrace p heldRest rt)).2 = 1 ∧
      (runButton s0 (pressTrace p heldRest rt)).1.buttonHoldTimeoutTriggered = false) := by
  have hp : 0 < p := by unfold BUTTON_DEBOUNCE_MS at hdeb; omega
  have h45lt : BUTTON_DEBOUNCE_MS < BUTTON_HOLD_TIMEOUT_MS := by
    unfold BUTTON_DEBOUNCE_MS BUTTON_HOLD_TIMEOUT_MS
    omega
  rw [runButton_pressTrace s0 p rt heldRest h0 hflag hstable hdeb]
  obtain ⟨hrelA, hrelB, hrelC⟩ := confirmButtonPressed_release p rt
    (heldRest.any (fun t => decide (t - p > BUTTON_HOLD_TIMEOUT_MS))) hp
  by_cases hd : BUTTON_DEBOUNCE_MS < rt - p
  · by_cases hl5 : rt - p < BUTTON_HOLD_TIMEOUT_MS
    · have hg : heldRest.any (fun t => decide (t - p > BUTTON_HOLD_TIMEOUT_MS)) = false := by
        rw [List.any_eq_false]
        intro t ht
        have h1 := hheld t ht
        simp only [decide_eq_true_eq]
        omega
      rw [hrelB hd hl5, hg]
      refine ⟨by simp, fun _ => rfl, ?_, fun _ _ => ⟨by simp, rfl⟩⟩
      intro hlong
      exact absurd hlong (by omega)
    · have hlong : BUTTON_HOLD_TIMEOUT_MS ≤ rt - p := by omega
      rw [hrelA hd hlong]
      refine ⟨by simp, by simp, fun _ => ⟨by simp, rfl⟩, ?_⟩
      intro _ h2
      exact absurd h2 (by omega)
  · rw [hrelC hd]
    refine ⟨by simp, by simp, ?_, ?_⟩
    · intro hlong
      exact absurd hlong (by omega)
    · intro hd2 _
      exact absurd hd2 hd

/-- Witness for C7: a press at 100 ms held through 200 ms and released at
400 ms yields exactly one confirm and no abnormal-hold condition. -/
theorem c7_confirm_and_hold_exclusive_witness :
    (runButton ⟨false, 0, 0, false⟩ (pressTrace 100 [200] 400)).2 = 1 ∧
    (runButton ⟨false, 0, 0, false⟩
        (pressTrace 100 [200] 400)).1.buttonHoldTimeoutTriggered = false :=
  (c7_confirm_and_hold_exclusive ⟨false, 0, 0, false⟩ 100 400 [200] rfl rfl rfl
    (by decide) (by decide)).2.2.2 (by decide) (by decide)

end Aeras
